import Mathlib

/-!
A shallow embedding of the aircraft-crew avatar demo.

The repository holds near-duplicate iterations of one React application:
`src/App.tsx` (a React-Three-Fiber avatar with plain substring command
matching) and a TalkingHead-based iteration (the second file under
`src/unnamed`, with fuzzy command matching and a fallback status for
unrecognised transcripts).  Strings are modelled as lists of characters;
the browser speech engines and timers are modelled by events delivered to
the component's callbacks, and each callback's effect is a pure transition
on the component's state together with a list of calls into the engines.
-/

/-- `String.prototype.toLowerCase`, on the ASCII range (every command
keyword is ASCII). -/
def toLowerStr (s : List Char) : List Char := s.map Char.toLower

/-- `String.prototype.toUpperCase`, on the ASCII range. -/
def toUpperStr (s : List Char) : List Char := s.map Char.toUpper

/-- `needle` occurs at the start of `hay`. -/
def leadsWith : List Char → List Char → Bool
  | [], _ => true
  | _ :: _, [] => false
  | a :: as, b :: bs => a == b && leadsWith as bs

/-- JavaScript `hay.includes(needle)`: `needle` is a contiguous substring
of `hay` (the empty string is a substring of everything). -/
def hasSub (needle : List Char) : List Char → Bool
  | [] => needle.isEmpty
  | b :: bs => leadsWith needle (b :: bs) || hasSub needle bs

/-- JavaScript `s.split(' ')`: split at each single space, keeping empty
pieces; splitting the empty string gives one empty piece. -/
def splitOnSpace : List Char → List (List Char)
  | [] => [[]]
  | c :: rest =>
    if c == ' ' then [] :: splitOnSpace rest
    else
      match splitOnSpace rest with
      | [] => [[c]]
      | w :: ws => (c :: w) :: ws

/-- JavaScript `s.trim()`: whitespace stripped from both ends. -/
def trimWs (s : List Char) : List Char :=
  ((s.dropWhile Char.isWhitespace).reverse.dropWhile Char.isWhitespace).reverse

namespace CrewApp

/-- `interface VoiceCommand` of `src/App.tsx`: a keyword and the animation
tag it activates. -/
structure VoiceCommand where
  text : List Char
  animation : List Char
deriving DecidableEq

/-- The `voiceCommands` table of `src/App.tsx` (lines 686-694), in source
order. -/
def voiceCommands : List VoiceCommand :=
  [⟨"turbulence".toList, "alert".toList⟩,
   ⟨"seatbelt".toList, "instruction".toList⟩,
   ⟨"landing".toList, "announcement".toList⟩,
   ⟨"takeoff".toList, "preparation".toList⟩,
   ⟨"emergency".toList, "urgent".toList⟩,
   ⟨"welcome".toList, "greeting".toList⟩,
   ⟨"safety".toList, "demonstration".toList⟩]

/-- `getInstructionForCommand` of `src/App.tsx` (lines 768-779): a
string-keyed dictionary lookup with default `'Command acknowledged.'`. -/
def getInstructionForCommand (command : List Char) : List Char :=
  if command == "turbulence".toList then
    "Ladies and gentlemen, we are experiencing some turbulence. Please return to your seats and fasten your seatbelts immediately.".toList
  else if command == "seatbelt".toList then
    "The seatbelt sign has been turned on. Please fasten your seatbelts and return your seats to the upright position.".toList
  else if command == "landing".toList then
    "We are beginning our descent for landing. Please ensure your seat backs and tray tables are in their upright position.".toList
  else if command == "takeoff".toList then
    "Ladies and gentlemen, we are preparing for takeoff. Please ensure your seats are in the upright position.".toList
  else if command == "emergency".toList then
    "This is an emergency announcement. Please remain calm and follow the instructions of the cabin crew immediately.".toList
  else if command == "welcome".toList then
    "Welcome aboard this flight. We hope you have a pleasant journey with us today.".toList
  else if command == "safety".toList then
    "Please review the safety information card in your seat pocket and listen carefully to our safety demonstration.".toList
  else "Command acknowledged.".toList

/-- The lookup in `recognition.onresult` (lines 739-741):
`voiceCommands.find(cmd => text.includes(cmd.text))`. -/
def findMatch (cmds : List VoiceCommand) (text : List Char) : Option VoiceCommand :=
  cmds.find? (fun cmd => hasSub cmd.text text)

/-- `interface AvatarState` of `src/App.tsx`. -/
structure AvatarState where
  isListening : Bool
  currentAnimation : List Char
  lipSyncActive : Bool
  recognizedText : List Char
deriving DecidableEq

/-- The component's mutable state: `avatarState`, `currentStatus` and
`isSpeaking`, plus the command table the handlers close over (carried in
the state so that its preservation is statable) and whether
`setupVoiceRecognition` found a recognition engine (`recognitionRef`). -/
structure ProgState where
  avatar : AvatarState
  currentStatus : List Char
  isSpeaking : Bool
  commands : List VoiceCommand
  hasRecognition : Bool
deriving DecidableEq

/-- The calls a handler makes into the browser engines. -/
inductive Action
  | speakTTS (text : List Char)
  | engineStart
  | engineStop
deriving DecidableEq

/-- The events driving the component: the recognition engine's callbacks
(`onstart`, `onresult`, `onerror`, `onend`), the utterance's callbacks
(the code registers `onend` only, so the utterance's error event reaches
no handler), the two `setTimeout` callbacks scheduled by `performLipSync`
and `performAnimation`, and the UI buttons. -/
inductive Event
  | recStart
  | recResult (raw : List Char)
  | recError
  | recEnd
  | utterEnd
  | utterError
  | lipSyncTimeout
  | animTimeout
  | pressStartButton
  | pressStopButton
  | testButton (txt : List Char)
deriving DecidableEq

-- Status strings exactly as `src/App.tsx` writes them.  The file's emoji
-- bytes are Mac-Roman mojibake of the original emoji (for example U+F8FF
-- followed by "üéØ" where the other iteration has a dart emoji); they are
-- reproduced character for character.

/-- Initial status and the status `recognition.onend` restores. -/
def readyStatus : List Char := "Ready for voice commands".toList

/-- Status written by `recognition.onstart`. -/
def listeningStatus : List Char := "üé§ Listening for command...".toList

/-- Status written by `recognition.onerror`. -/
def errorStatus : List Char := "üé§ Voice recognition error. Please try again.".toList

/-- Status written by the utterance's `onend`. -/
def completedStatus : List Char := "‚úÖ Announcement completed".toList

/-- Status written by `recognition.onresult` on a match. -/
def executingStatus (t : List Char) : List Char :=
  "üéØ Executing: ".toList ++ toUpperStr t

/-- Status written by `testCommand`. -/
def testingStatus (t : List Char) : List Char :=
  "üéØ Testing: ".toList ++ toUpperStr t

/-- `speak` of `src/App.tsx` (lines 781-807): sets `isSpeaking` and hands
an utterance of `text` to `speechSynthesis.speak`.  The voice, rate,
pitch and volume parameters affect no modelled state.  The utterance's
`onend` callback is the `utterEnd` event; no `onerror` is registered. -/
def speak (text : List Char) (s : ProgState) : ProgState × List Action :=
  ({ s with isSpeaking := true }, [Action.speakTTS text])

/-- One event handled, exactly as `src/App.tsx` wires it up. -/
def step (e : Event) (s : ProgState) : ProgState × List Action :=
  match e with
  | .recStart =>
    ({ s with avatar.isListening := true, currentStatus := listeningStatus }, [])
  | .recResult raw =>
    match findMatch s.commands (toLowerStr raw) with
    | some cmd =>
      speak (getInstructionForCommand cmd.text)
        { s with avatar.recognizedText := toLowerStr raw,
                 currentStatus := executingStatus cmd.text,
                 avatar.lipSyncActive := true,
                 avatar.currentAnimation := cmd.animation }
    | none => ({ s with avatar.recognizedText := toLowerStr raw }, [])
  | .recError =>
    ({ s with avatar.isListening := false, currentStatus := errorStatus }, [])
  | .recEnd =>
    ({ s with avatar.isListening := false,
              currentStatus := if s.isSpeaking then s.currentStatus else readyStatus }, [])
  | .utterEnd =>
    ({ s with isSpeaking := false, currentStatus := completedStatus }, [])
  | .utterError => (s, [])
  | .lipSyncTimeout => ({ s with avatar.lipSyncActive := false }, [])
  | .animTimeout => ({ s with avatar.currentAnimation := "idle".toList }, [])
  | .pressStartButton =>
    if s.hasRecognition && !s.avatar.isListening then (s, [Action.engineStart])
    else (s, [])
  | .pressStopButton =>
    if s.hasRecognition && s.avatar.isListening then (s, [Action.engineStop])
    else (s, [])
  | .testButton txt =>
    match s.commands.find? (fun cmd => cmd.text == txt) with
    | some cmd =>
      speak (getInstructionForCommand cmd.text)
        { s with currentStatus := testingStatus cmd.text,
                 avatar.lipSyncActive := true,
                 avatar.currentAnimation := cmd.animation }
    | none => (s, [])

/-- The initial `useState` values; `hasRec` says whether the browser
offers a SpeechRecognition implementation. -/
def initState (hasRec : Bool) : ProgState :=
  { avatar := { isListening := false, currentAnimation := "idle".toList,
                lipSyncActive := false, recognizedText := [] },
    currentStatus := readyStatus,
    isSpeaking := false,
    commands := voiceCommands,
    hasRecognition := hasRec }

end CrewApp

namespace CrewHead

/-- `interface VoiceCommand` of the TalkingHead iteration: keyword, canned
instruction text and an optional gesture tag.  There is no audio-path
field. -/
structure VoiceCommand where
  command : List Char
  instruction : List Char
  gesture : Option (List Char)
deriving DecidableEq

/-- The `voiceCommands` table of the TalkingHead iteration, in source
order. -/
def voiceCommands : List VoiceCommand :=
  [⟨"turbulence".toList,
    "Ladies and gentlemen, we are experiencing some turbulence. Please return to your seats and fasten your seatbelts immediately for your safety.".toList,
    some "wave".toList⟩,
   ⟨"seatbelt".toList,
    "The seatbelt sign has been turned on. Please fasten your seatbelts and return your seats to the upright position.".toList,
    some "point".toList⟩,
   ⟨"landing".toList,
    "We are beginning our descent for landing. Please ensure your seat backs and tray tables are in their upright position.".toList,
    some "explain".toList⟩,
   ⟨"safety".toList,
    "Please review the safety information card in your seat pocket and listen carefully to our safety demonstration.".toList,
    some "present".toList⟩,
   ⟨"welcome".toList,
    "Welcome aboard this flight. We hope you have a pleasant journey with us today.".toList,
    some "greet".toList⟩,
   ⟨"emergency".toList,
    "This is an emergency announcement. Please remain calm and follow the instructions of the cabin crew immediately.".toList,
    some "alert".toList⟩]

/-- One transcript word tested against one command, exactly the predicate
of `recognition.onresult`:
`word.includes(cmd.command) || cmd.command.includes(word) ||
 word.length > 3 && cmd.command.includes(word)`. -/
def fuzzyWordHit (cmd : List Char) (word : List Char) : Bool :=
  hasSub cmd word || hasSub word cmd || (decide (3 < word.length) && hasSub word cmd)

/-- The fuzzy match of `recognition.onresult`: some whitespace-separated
word of the transcript hits the command. -/
def fuzzyMatches (cmd : VoiceCommand) (transcript : List Char) : Bool :=
  (splitOnSpace transcript).any (fun word => fuzzyWordHit cmd.command word)

/-- `voiceCommands.find(...)` over the fuzzy match. -/
def findFuzzy (cmds : List VoiceCommand) (transcript : List Char) : Option VoiceCommand :=
  cmds.find? (fun cmd => fuzzyMatches cmd transcript)

/-- Status written by `startListening`. -/
def listeningStatus : List Char := "🎤 Listening for command...".toList

/-- Status written by `recognition.onerror`. -/
def errorStatus : List Char := "🎤 Voice recognition error. Please try again.".toList

/-- Status written by the utterance's `onend` in `speak`. -/
def completedStatus : List Char := "✅ Announcement completed".toList

/-- Status written by `stopSpeaking`. -/
def stoppedStatus : List Char := "🔇 Speech stopped".toList

/-- Status written at the start of `executeCommand`. -/
def executingStatus (c : List Char) : List Char :=
  "🎯 Executing: ".toList ++ toUpperStr c

/-- Status written when the TalkingHead `speakText` call completes. -/
def doneStatus (c : List Char) : List Char :=
  "✅ ".toList ++ toUpperStr c ++ " announcement completed".toList

/-- The fallback status of `recognition.onresult`: the transcript quoted
and every command keyword of the table listed. -/
def fallbackStatus (transcript : List Char) : List Char :=
  "❓ Command \"".toList ++ transcript ++ "\" not recognized. Try: ".toList
    ++ List.intercalate ", ".toList (voiceCommands.map (fun c => c.command))

/-- The component's mutable state (the presentational `currentMessage` and
`loadingProgress` values are never read by the modelled handlers and are
omitted), plus capability flags: whether the avatar finished loading
(`isAvatarReady`), whether it is a TalkingHead instance exposing
`speakText` (`hasSpeakText`), and whether a recognition engine exists
(`speechRecognition`). -/
structure State where
  isListening : Bool
  isAvatarReady : Bool
  isSpeaking : Bool
  hasSpeakText : Bool
  hasRecognition : Bool
  currentStatus : List Char
  commands : List VoiceCommand
deriving DecidableEq

/-- The calls a handler makes into the avatar and the browser engines. -/
inductive Action
  | avatarSpeakText (text : List Char)
  | ttsSpeak (text : List Char)
  | gesturePlay (g : List Char)
  | moodSet (m : List Char)
  | engineStart
  | synthCancel
  | avatarStop
deriving DecidableEq

/-- The events driving the component: recognition callbacks, the
utterance's callbacks (only `onend` is registered), completion and
failure of the awaited `speakText` call, and the UI buttons. -/
inductive Event
  | recResult (raw : List Char)
  | recError
  | recEnd
  | utterEnd
  | utterError
  | speakTextDone (cmd : VoiceCommand)
  | speakTextFail (cmd : VoiceCommand)
  | pressVoiceButton
  | pressStopButton
  | testButton (txt : List Char)
deriving DecidableEq

/-- `performGesture`: the switch over gesture tags; the five named
gestures call `playGesture`, `'alert'` sets the avatar's mood, anything
else does nothing. -/
def gestureActions (g : List Char) : List Action :=
  if g == "wave".toList || g == "point".toList || g == "explain".toList
      || g == "present".toList || g == "greet".toList then
    [Action.gesturePlay g]
  else if g == "alert".toList then [Action.moodSet g]
  else []

/-- `speak` of the TalkingHead iteration (plain browser TTS with fixed
rate, pitch and volume); only the utterance's `onend` is registered. -/
def speak (text : List Char) (s : State) : State × List Action :=
  ({ s with isSpeaking := true }, [Action.ttsSpeak text])

/-- The texts a list of actions hands to a speech synthesiser (either the
TalkingHead `speakText` call or a browser utterance). -/
def speechTexts : List Action → List (List Char)
  | [] => []
  | Action.avatarSpeakText t :: rest => t :: speechTexts rest
  | Action.ttsSpeak t :: rest => t :: speechTexts rest
  | _ :: rest => speechTexts rest

/-- The synchronous effect of `executeCommand`: nothing before the avatar
is ready; with a TalkingHead avatar the status is set, speaking begins
and the gesture and `speakText` calls are issued (their completion and
failure are the `speakTextDone` / `speakTextFail` events, the latter
being the `catch` branch); without `speakText` the plain `speak`
fallback runs on the instruction text. -/
def executeCommand (cmd : VoiceCommand) (s : State) : State × List Action :=
  if !s.isAvatarReady then (s, [])
  else if s.hasSpeakText then
    ({ s with currentStatus := executingStatus cmd.command, isSpeaking := true },
      (match cmd.gesture with
       | some g => gestureActions g
       | none => []) ++ [Action.avatarSpeakText cmd.instruction])
  else
    speak cmd.instruction { s with currentStatus := executingStatus cmd.command }

/-- One event handled, exactly as the TalkingHead iteration wires it up.
The avatar's conditional `stopSpeaking` call inside the stop button is
gated, like `speakText`, on the avatar being a TalkingHead instance. -/
def step (e : Event) (s : State) : State × List Action :=
  match e with
  | .recResult raw =>
    match findFuzzy s.commands (trimWs (toLowerStr raw)) with
    | some cmd => executeCommand cmd s
    | none =>
      ({ s with currentStatus := fallbackStatus (trimWs (toLowerStr raw)) }, [])
  | .recError =>
    ({ s with isListening := false, currentStatus := errorStatus }, [])
  | .recEnd => ({ s with isListening := false }, [])
  | .utterEnd =>
    ({ s with isSpeaking := false, currentStatus := completedStatus }, [])
  | .utterError => (s, [])
  | .speakTextDone cmd =>
    ({ s with isSpeaking := false, currentStatus := doneStatus cmd.command }, [])
  | .speakTextFail cmd => speak cmd.instruction s
  | .pressVoiceButton =>
    if s.hasRecognition && !s.isListening then
      ({ s with isListening := true, currentStatus := listeningStatus },
        [Action.engineStart])
    else (s, [])
  | .pressStopButton =>
    ({ s with isSpeaking := false, currentStatus := stoppedStatus },
      Action.synthCancel :: if s.hasSpeakText then [Action.avatarStop] else [])
  | .testButton txt =>
    match s.commands.find? (fun cmd => cmd.command == txt) with
    | some cmd => executeCommand cmd s
    | none => (s, [])

/-- The initial `useState` values; `ready`, `hasST` and `hasRec` say
whether the avatar loaded, whether it is a TalkingHead instance exposing
`speakText`, and whether a recognition engine exists. -/
def initState (ready hasST hasRec : Bool) : State :=
  { isListening := false, isAvatarReady := ready, isSpeaking := false,
    hasSpeakText := hasST, hasRecognition := hasRec,
    currentStatus := "Loading professional avatar system...".toList,
    commands := voiceCommands }

/-- The state once the TalkingHead avatar has loaded and recognition was
set up. -/
def readyState : State :=
  { initState true true true with
      currentStatus := "✅ Professional crew avatar ready!".toList }

end CrewHead

/-- The per-frame breathing transform of both `FallbackAvatar` components
(and of `ReadyPlayerMeAvatar`): `Math.sin(time * 2) * 0.02 + 1`, written
to `scale.y`. -/
noncomputable def breathe (t : ℝ) : ℝ := Real.sin (t * 2) * 0.02 + 1

/-! ## Helper lemmas -/

/-- `executeCommand` never touches the command table. -/
theorem executeCommand_commands (cmd : CrewHead.VoiceCommand) (s : CrewHead.State) :
    (CrewHead.executeCommand cmd s).1.commands = s.commands := by
  unfold CrewHead.executeCommand
  split
  · rfl
  · split
    · rfl
    · rfl

/-- `executeCommand` never touches the listening flag. -/
theorem executeCommand_isListening (cmd : CrewHead.VoiceCommand) (s : CrewHead.State) :
    (CrewHead.executeCommand cmd s).1.isListening = s.isListening := by
  unfold CrewHead.executeCommand
  split
  · rfl
  · split
    · rfl
    · rfl

/-! ## Claim theorems -/

/-- Claim C5, amended: `speak` sets the speaking flag and the utterance's
`onend` callback clears it, in both iterations; but the utterance's error
event reaches no handler (the code registers no `onerror`), so a failed
synthesis changes nothing. -/
theorem c5_speaking_flag :
    (∀ (t : List Char) (s : CrewApp.ProgState), (CrewApp.speak t s).1.isSpeaking = true)
    ∧ (∀ s, (CrewApp.step CrewApp.Event.utterEnd s).1.isSpeaking = false)
    ∧ (∀ (t : List Char) (s : CrewHead.State), (CrewHead.speak t s).1.isSpeaking = true)
    ∧ (∀ s, (CrewHead.step CrewHead.Event.utterEnd s).1.isSpeaking = false)
    ∧ (∀ s, CrewApp.step CrewApp.Event.utterError s = (s, []))
    ∧ (∀ s, CrewHead.step CrewHead.Event.utterError s = (s, [])) :=
  ⟨fun _ _ => rfl, fun _ => rfl, fun _ _ => rfl, fun _ => rfl, fun _ => rfl, fun _ => rfl⟩

/-- Claim C5 fails as stated: after `speak` a failed synthesis (the
utterance's error event, for which no handler is registered) leaves the
speaking flag true. -/
theorem c5_counterexample :
    (CrewApp.step CrewApp.Event.utterError
        (CrewApp.speak "Command acknowledged.".toList (CrewApp.initState true)).1).1.isSpeaking
      = true := rfl

/-- Claim C6: in both iterations, every recognition error event writes the
error notification to the status text, resets the listening flag, and
issues no engine call (no retry, no failure). -/
theorem c6_error_handler :
    (∀ s : CrewApp.ProgState,
        (CrewApp.step CrewApp.Event.recError s).1.currentStatus = CrewApp.errorStatus
        ∧ (CrewApp.step CrewApp.Event.recError s).1.avatar.isListening = false
        ∧ (CrewApp.step CrewApp.Event.recError s).2 = [])
    ∧ (∀ s : CrewHead.State,
        (CrewHead.step CrewHead.Event.recError s).1.currentStatus = CrewHead.errorStatus
        ∧ (CrewHead.step CrewHead.Event.recError s).1.isListening = false
        ∧ (CrewHead.step CrewHead.Event.recError s).2 = []) :=
  ⟨fun _ => ⟨rfl, rfl, rfl⟩, fun _ => ⟨rfl, rfl, rfl⟩⟩

/-- Claim C7: the command table is static: no event of either iteration
changes the table carried in the state, and the initial state's table is
the source's literal. -/
theorem c7_table_static :
    (∀ (e : CrewApp.Event) (s : CrewApp.ProgState),
        (CrewApp.step e s).1.commands = s.commands)
    ∧ (∀ (e : CrewHead.Event) (s : CrewHead.State),
        (CrewHead.step e s).1.commands = s.commands)
    ∧ (∀ b, (CrewApp.initState b).commands = CrewApp.voiceCommands)
    ∧ (∀ a b c, (CrewHead.initState a b c).commands = CrewHead.voiceCommands) := by
  refine ⟨fun e s => ?_, fun e s => ?_, fun _ => rfl, fun _ _ _ => rfl⟩
  · cases e with
    | recResult raw =>
      simp only [CrewApp.step]
      cases CrewApp.findMatch s.commands (toLowerStr raw) <;> rfl
    | testButton txt =>
      simp only [CrewApp.step]
      cases s.commands.find? (fun cmd => cmd.text == txt) <;> rfl
    | pressStartButton =>
      simp only [CrewApp.step]
      split <;> rfl
    | pressStopButton =>
      simp only [CrewApp.step]
      split <;> rfl
    | _ => rfl
  · cases e with
    | recResult raw =>
      simp only [CrewHead.step]
      cases CrewHead.findFuzzy s.commands (trimWs (toLowerStr raw)) with
      | none => rfl
      | some cmd => exact executeCommand_commands cmd s
    | testButton txt =>
      simp only [CrewHead.step]
      cases s.commands.find? (fun cmd => cmd.command == txt) with
      | none => rfl
      | some cmd => exact executeCommand_commands cmd s
    | pressVoiceButton =>
      simp only [CrewHead.step]
      split <;> rfl
    | _ => rfl

/-- Claim C8: for every frame time, the breathing transform is the
closed-form sinusoid `sin(t * 2) * 0.02 + 1` and its value lies in
[0.98, 1.02]. -/
theorem c8_breathing_range :
    ∀ t : ℝ, breathe t = Real.sin (t * 2) * 0.02 + 1
      ∧ 0.98 ≤ breathe t ∧ breathe t ≤ 1.02 := by
  intro t
  have h1 := Real.neg_one_le_sin (t * 2)
  have h2 := Real.sin_le_one (t * 2)
  refine ⟨rfl, ?_, ?_⟩ <;> unfold breathe <;> nlinarith

/-- Claim C2, amended: the fuzzy-matching handler writes the fallback
status (which quotes the transcript and lists every command keyword)
exactly when the fuzzy matcher finds no command; the handler of
`src/App.tsx` has no fallback branch and leaves the status unchanged when
no keyword is contained in the transcript. -/
theorem c2_fallback_status :
    (∀ (raw : List Char) (s : CrewHead.State),
        CrewHead.findFuzzy s.commands (trimWs (toLowerStr raw)) = none →
        (CrewHead.step (CrewHead.Event.recResult raw) s).1.currentStatus
          = CrewHead.fallbackStatus (trimWs (toLowerStr raw)))
    ∧ (∀ (raw : List Char) (s : CrewApp.ProgState),
        CrewApp.findMatch s.commands (toLowerStr raw) = none →
        (CrewApp.step (CrewApp.Event.recResult raw) s).1.currentStatus
          = s.currentStatus) := by
  constructor
  · intro raw s h
    simp only [CrewHead.step, h]
  · intro raw s h
    simp only [CrewApp.step, h]

/-- Claim C2 witness: the transcript `xyz` matches nothing and yields the
fallback status. -/
theorem c2_fallback_status_witness :
    (CrewHead.step (CrewHead.Event.recResult "xyz".toList) CrewHead.readyState).1.currentStatus
      = CrewHead.fallbackStatus (trimWs (toLowerStr "xyz".toList)) :=
  c2_fallback_status.1 "xyz".toList CrewHead.readyState (by decide)

/-- Claim C2 fails as stated: `belt` contains no command keyword, yet the
fuzzy handler executes `seatbelt` (the keyword contains the word) instead
of writing the fallback status; and in `src/App.tsx` an unmatched
transcript leaves the status unchanged instead of writing a fallback. -/
theorem c2_counterexample :
    (∀ c ∈ CrewHead.voiceCommands, hasSub c.command "belt".toList = false)
    ∧ (CrewHead.step (CrewHead.Event.recResult "belt".toList) CrewHead.readyState).1.currentStatus
        = CrewHead.executingStatus "seatbelt".toList
    ∧ CrewHead.executingStatus "seatbelt".toList ≠ CrewHead.fallbackStatus "belt".toList
    ∧ (CrewApp.step (CrewApp.Event.recResult "hello".toList) (CrewApp.initState true)).1.currentStatus
        = (CrewApp.initState true).currentStatus := by
  refine ⟨by decide, by decide, by decide, by decide⟩

/-- Claim C3 evidence: whatever the avatar's capabilities, executing a
command only ever hands the command's instruction text to a speech
synthesiser (the TalkingHead `speakText` call or the browser TTS
fallback); no action addresses an audio file, and `VoiceCommand` has no
audio-path field. -/
theorem c3_execute_always_tts (s : CrewHead.State) (cmd : CrewHead.VoiceCommand)
    (h : s.isAvatarReady = true) :
    CrewHead.speechTexts (CrewHead.executeCommand cmd s).2 = [cmd.instruction] := by
  obtain ⟨lis, ready, spk, hst, hr, st, cs⟩ := s
  replace h : ready = true := h
  subst h
  obtain ⟨ctext, cinstr, g⟩ := cmd
  cases hst
  · rfl
  · cases g with
    | none => rfl
    | some g0 =>
      show CrewHead.speechTexts
          (CrewHead.gestureActions g0 ++ [CrewHead.Action.avatarSpeakText cinstr]) = [cinstr]
      unfold CrewHead.gestureActions
      split
      · rfl
      · split
        · rfl
        · rfl

/-- Claim C3 witness: the turbulence entry, executed against the ready
TalkingHead state, speech-synthesises exactly its instruction text. -/
theorem c3_execute_always_tts_witness :
    CrewHead.speechTexts (CrewHead.executeCommand
        ⟨"turbulence".toList,
         "Ladies and gentlemen, we are experiencing some turbulence. Please return to your seats and fasten your seatbelts immediately for your safety.".toList,
         some "wave".toList⟩
        CrewHead.readyState).2
      = ["Ladies and gentlemen, we are experiencing some turbulence. Please return to your seats and fasten your seatbelts immediately for your safety.".toList] :=
  c3_execute_always_tts CrewHead.readyState
    ⟨"turbulence".toList,
     "Ladies and gentlemen, we are experiencing some turbulence. Please return to your seats and fasten your seatbelts immediately for your safety.".toList,
     some "wave".toList⟩ rfl

/-- Claim C4, amended: in `src/App.tsx` the listening flag becomes true
only through the engine's `onstart` callback and is reset by `onerror`
and `onend`; in the TalkingHead iteration (which registers no `onstart`)
`startListening` sets the flag true directly at the button press, and
`onerror` and `onend` reset it. -/
theorem c4_listening_flag :
    (∀ (e : CrewApp.Event) (s : CrewApp.ProgState),
        (CrewApp.step e s).1.avatar.isListening = true →
        s.avatar.isListening = true ∨ e = CrewApp.Event.recStart)
    ∧ (∀ s, (CrewApp.step CrewApp.Event.recError s).1.avatar.isListening = false)
    ∧ (∀ s, (CrewApp.step CrewApp.Event.recEnd s).1.avatar.isListening = false)
    ∧ (∀ s, (CrewHead.step CrewHead.Event.recError s).1.isListening = false)
    ∧ (∀ s, (CrewHead.step CrewHead.Event.recEnd s).1.isListening = false)
    ∧ (∀ s : CrewHead.State, s.hasRecognition = true → s.isListening = false →
        (CrewHead.step CrewHead.Event.pressVoiceButton s).1.isListening = true) := by
  refine ⟨?_, fun _ => rfl, fun _ => rfl, fun _ => rfl, fun _ => rfl, ?_⟩
  · intro e s hl
    cases e with
    | recStart => exact Or.inr rfl
    | recResult raw =>
      left
      simp only [CrewApp.step] at hl
      cases h : CrewApp.findMatch s.commands (toLowerStr raw) <;> rw [h] at hl <;> exact hl
    | recError => simp [CrewApp.step] at hl
    | recEnd => simp [CrewApp.step] at hl
    | utterEnd => exact Or.inl hl
    | utterError => exact Or.inl hl
    | lipSyncTimeout => exact Or.inl hl
    | animTimeout => exact Or.inl hl
    | pressStartButton =>
      left
      simp only [CrewApp.step] at hl
      split at hl <;> exact hl
    | pressStopButton =>
      left
      simp only [CrewApp.step] at hl
      split at hl <;> exact hl
    | testButton txt =>
      left
      simp only [CrewApp.step] at hl
      cases h : s.commands.find? (fun cmd => cmd.text == txt) <;> rw [h] at hl <;> exact hl
  · intro s h1 h2
    simp only [CrewHead.step]
    rw [h1, h2]
    rfl

/-- Claim C4 witness: from the ready TalkingHead state (not listening,
engine present), pressing the voice button turns the flag on; and in
`src/App.tsx`, `onstart` is a way the flag can have become true. -/
theorem c4_listening_flag_witness :
    ((CrewApp.initState true).avatar.isListening = true
      ∨ CrewApp.Event.recStart = CrewApp.Event.recStart)
    ∧ (CrewHead.step CrewHead.Event.pressVoiceButton CrewHead.readyState).1.isListening = true :=
  ⟨c4_listening_flag.1 CrewApp.Event.recStart (CrewApp.initState true) rfl,
   c4_listening_flag.2.2.2.2.2 CrewHead.readyState rfl rfl⟩

/-- Claim C4 fails as stated: in the TalkingHead iteration the listening
flag becomes true at the button press itself (`startListening` sets it
before starting the engine; no `onstart` handler exists). -/
theorem c4_counterexample :
    CrewHead.readyState.isListening = false
    ∧ (CrewHead.step CrewHead.Event.pressVoiceButton CrewHead.readyState).1.isListening = true :=
  ⟨rfl, rfl⟩

/-- Claim C9: matching in `src/App.tsx` is substring containment resolved
in table order: the table lists the seven keywords in source order, and
the lookup returns `some c` exactly when the (lowercased) transcript
contains `c`'s keyword and contains no keyword of an earlier entry. -/
theorem c9_substring_table_order :
    (CrewApp.voiceCommands.map (fun c => c.text)
        = ["turbulence".toList, "seatbelt".toList, "landing".toList, "takeoff".toList,
           "emergency".toList, "welcome".toList, "safety".toList])
    ∧ ∀ (t : List Char) (c : CrewApp.VoiceCommand),
        CrewApp.findMatch CrewApp.voiceCommands t = some c ↔
          hasSub c.text t = true
          ∧ ∃ l1 l2, CrewApp.voiceCommands = l1 ++ c :: l2
            ∧ ∀ c2 ∈ l1, hasSub c2.text t = false := by
  refine ⟨rfl, fun t c => ?_⟩
  unfold CrewApp.findMatch
  rw [List.find?_eq_some]
  simp only [Bool.not_eq_true']

/-- Claim C9 witness: a transcript containing both `turbulence` and
`seatbelt` resolves to the turbulence entry, first in table order. -/
theorem c9_substring_table_order_witness :
    CrewApp.findMatch CrewApp.voiceCommands "turbulence seatbelt".toList
      = some ⟨"turbulence".toList, "alert".toList⟩ :=
  (c9_substring_table_order.2 "turbulence seatbelt".toList
      ⟨"turbulence".toList, "alert".toList⟩).mpr
    ⟨by decide,
     [],
     [⟨"seatbelt".toList, "instruction".toList⟩, ⟨"landing".toList, "announcement".toList⟩,
      ⟨"takeoff".toList, "preparation".toList⟩, ⟨"emergency".toList, "urgent".toList⟩,
      ⟨"welcome".toList, "greeting".toList⟩, ⟨"safety".toList, "demonstration".toList⟩],
     by decide, by decide⟩

/-- Claim C10: in the fuzzy-matching iteration, a transcript matches a
command whenever any whitespace-separated word of it is a substring of
the command's keyword, with no minimum length; in particular the
one-letter transcript `a` (whose only word is contained in no keyword of
the transcript itself) is executed as `seatbelt` rather than reported
unrecognized. -/
theorem c10_fuzzy_word_match :
    (∀ (c : CrewHead.VoiceCommand) (t : List Char),
        (∃ w ∈ splitOnSpace t, hasSub w c.command = true) →
        CrewHead.fuzzyMatches c t = true)
    ∧ (∀ c ∈ CrewHead.voiceCommands, hasSub c.command "a".toList = false)
    ∧ (CrewHead.step (CrewHead.Event.recResult "a".toList) CrewHead.readyState).1.currentStatus
        = CrewHead.executingStatus "seatbelt".toList := by
  refine ⟨?_, by decide, by decide⟩
  rintro c t ⟨w, hw, hsub⟩
  unfold CrewHead.fuzzyMatches
  rw [List.any_eq_true]
  refine ⟨w, hw, ?_⟩
  unfold CrewHead.fuzzyWordHit
  rw [hsub]
  simp

/-- Claim C10 witness: the seatbelt entry fuzzy-matches the one-letter
transcript `a`. -/
theorem c10_fuzzy_word_match_witness :
    CrewHead.fuzzyMatches
        ⟨"seatbelt".toList,
         "The seatbelt sign has been turned on. Please fasten your seatbelts and return your seats to the upright position.".toList,
         some "point".toList⟩
        "a".toList = true :=
  c10_fuzzy_word_match.1
    ⟨"seatbelt".toList,
     "The seatbelt sign has been turned on. Please fasten your seatbelts and return your seats to the upright position.".toList,
     some "point".toList⟩
    "a".toList ⟨"a".toList, by decide, by decide⟩

/-- A table entry's own keyword finds exactly that entry (the seven
keywords are pairwise distinct). -/
theorem find_text_self (cmd : CrewApp.VoiceCommand) (h : cmd ∈ CrewApp.voiceCommands) :
    CrewApp.voiceCommands.find? (fun c => c.text == cmd.text) = some cmd := by
  fin_cases h <;> decide

/-- Claim C1, amended: for every entry of the table, the test button
writes the Testing status for its keyword, activates exactly its paired
animation tag, starts lip sync and speaks exactly the fixed instruction
text for the keyword; and a recognized transcript whose first match in
table order is that entry does the same with the Executing status. -/
theorem c1_command_effects :
    ∀ cmd ∈ CrewApp.voiceCommands, ∀ s : CrewApp.ProgState,
      s.commands = CrewApp.voiceCommands →
      ((CrewApp.step (CrewApp.Event.testButton cmd.text) s).1.currentStatus
          = CrewApp.testingStatus cmd.text
        ∧ (CrewApp.step (CrewApp.Event.testButton cmd.text) s).1.avatar.currentAnimation
          = cmd.animation
        ∧ (CrewApp.step (CrewApp.Event.testButton cmd.text) s).1.avatar.lipSyncActive = true
        ∧ (CrewApp.step (CrewApp.Event.testButton cmd.text) s).2
          = [CrewApp.Action.speakTTS (CrewApp.getInstructionForCommand cmd.text)])
      ∧ ∀ raw, CrewApp.findMatch CrewApp.voiceCommands (toLowerStr raw) = some cmd →
          (CrewApp.step (CrewApp.Event.recResult raw) s).1.currentStatus
            = CrewApp.executingStatus cmd.text
          ∧ (CrewApp.step (CrewApp.Event.recResult raw) s).1.avatar.currentAnimation
            = cmd.animation
          ∧ (CrewApp.step (CrewApp.Event.recResult raw) s).1.avatar.lipSyncActive = true
          ∧ (CrewApp.step (CrewApp.Event.recResult raw) s).2
            = [CrewApp.Action.speakTTS (CrewApp.getInstructionForCommand cmd.text)] := by
  intro cmd hmem s hcs
  constructor
  · have ht : CrewApp.step (CrewApp.Event.testButton cmd.text) s
        = CrewApp.speak (CrewApp.getInstructionForCommand cmd.text)
            { s with currentStatus := CrewApp.testingStatus cmd.text,
                     avatar.lipSyncActive := true,
                     avatar.currentAnimation := cmd.animation } := by
      simp only [CrewApp.step, hcs, find_text_self cmd hmem]
    rw [ht]
    exact ⟨rfl, rfl, rfl, rfl⟩
  · intro raw hfind
    have hv : CrewApp.step (CrewApp.Event.recResult raw) s
        = CrewApp.speak (CrewApp.getInstructionForCommand cmd.text)
            { s with avatar.recognizedText := toLowerStr raw,
                     currentStatus := CrewApp.executingStatus cmd.text,
                     avatar.lipSyncActive := true,
                     avatar.currentAnimation := cmd.animation } := by
      simp only [CrewApp.step, hcs, hfind]
    rw [hv]
    exact ⟨rfl, rfl, rfl, rfl⟩

/-- Claim C1 witness: the turbulence entry, triggered by the test button
and by the transcript `turbulence`, from the initial state. -/
theorem c1_command_effects_witness :
    ((CrewApp.step (CrewApp.Event.testButton "turbulence".toList)
          (CrewApp.initState true)).1.currentStatus
        = CrewApp.testingStatus "turbulence".toList
      ∧ (CrewApp.step (CrewApp.Event.testButton "turbulence".toList)
          (CrewApp.initState true)).1.avatar.currentAnimation = "alert".toList
      ∧ (CrewApp.step (CrewApp.Event.testButton "turbulence".toList)
          (CrewApp.initState true)).1.avatar.lipSyncActive = true
      ∧ (CrewApp.step (CrewApp.Event.testButton "turbulence".toList)
          (CrewApp.initState true)).2
        = [CrewApp.Action.speakTTS (CrewApp.getInstructionForCommand "turbulence".toList)])
    ∧ ((CrewApp.step (CrewApp.Event.recResult "turbulence".toList)
          (CrewApp.initState true)).1.currentStatus
        = CrewApp.executingStatus "turbulence".toList
      ∧ (CrewApp.step (CrewApp.Event.recResult "turbulence".toList)
          (CrewApp.initState true)).1.avatar.currentAnimation = "alert".toList
      ∧ (CrewApp.step (CrewApp.Event.recResult "turbulence".toList)
          (CrewApp.initState true)).1.avatar.lipSyncActive = true
      ∧ (CrewApp.step (CrewApp.Event.recResult "turbulence".toList)
          (CrewApp.initState true)).2
        = [CrewApp.Action.speakTTS (CrewApp.getInstructionForCommand "turbulence".toList)]) :=
  ⟨(c1_command_effects ⟨"turbulence".toList, "alert".toList⟩ (by decide)
      (CrewApp.initState true) rfl).1,
   (c1_command_effects ⟨"turbulence".toList, "alert".toList⟩ (by decide)
      (CrewApp.initState true) rfl).2 "turbulence".toList (by decide)⟩

/-- Claim C1 fails as stated: the test button writes the Testing status,
not an Executing status; and a transcript containing the keyword
`seatbelt` is executed as `turbulence` (earlier in the table), speaking
the turbulence instruction rather than the seatbelt one. -/
theorem c1_counterexample :
    ((CrewApp.step (CrewApp.Event.testButton "turbulence".toList)
          (CrewApp.initState true)).1.currentStatus
        ≠ CrewApp.executingStatus "turbulence".toList)
    ∧ hasSub "seatbelt".toList (toLowerStr "turbulence seatbelt".toList) = true
    ∧ (CrewApp.step (CrewApp.Event.recResult "turbulence seatbelt".toList)
          (CrewApp.initState true)).2
        = [CrewApp.Action.speakTTS (CrewApp.getInstructionForCommand "turbulence".toList)]
    ∧ CrewApp.getInstructionForCommand "turbulence".toList
        ≠ CrewApp.getInstructionForCommand "seatbelt".toList := by
  refine ⟨by decide, by decide, by decide, by decide⟩
